import Mathlib

/-!
Verification development for `src/VoyageAI/data_pipeline.py`.

The Python module defines a class `Dataset` whose methods drive a sequential
data-collection loop over static configuration tables, calling three external
collaborators (a geocoding CSV, the open-meteo weather API, and the SerpAPI
trends API).  The collaborators are modelled as explicit oracles
(function-valued fields of a `Config` record); every method of `Dataset` and
every configuration table is translated below, keeping the source's names.

Numeric values that the Python code handles as floats are modelled as `ℚ`.
String operations used by the code (`str.replace`, `str.lower`, substring
membership as used by the pandas `str.contains` matcher on a literal
pattern) are modelled on `List Char`.
-/

/-- `leadMatch pat s` : `pat` occurs at the very beginning of `s`
(character-by-character comparison). -/
def leadMatch : List Char → List Char → Bool
  | [], _ => true
  | _ :: _, [] => false
  | a :: as, b :: bs => a == b && leadMatch as bs

/-- `subMatch pat s` : `pat` occurs somewhere inside `s`, with every
character of `pat` taken literally.  This is Python's substring membership
`pat in s`.  Note that it is only the literal-substring reading of the
pandas `Series.str.contains` matcher: that matcher keeps its default
`regex=True`, under which the two agree exactly when the pattern has no
regular-expression metacharacters (true of every region name the collection
loop queries, but not of arbitrary patterns — see `strContainsRegex`). -/
def subMatch (pat : List Char) : List Char → Bool
  | [] => leadMatch pat []
  | c :: rest => leadMatch pat (c :: rest) || subMatch pat rest

/-- `strContainsSub s pat` : the string `pat` occurs inside the string `s`
as a literal substring (the literal-substring model of the containment
search; the regex-faithful model is `strContainsRegex` below). -/
def strContainsSub (s pat : String) : Bool :=
  subMatch pat.toList s.toList

/-- Helper for `strReplace`: replace every (leftmost, non-overlapping)
occurrence of `old` by `new`, exactly as Python's `str.replace` does for a
non-empty `old`.  (The code only ever replaces the non-empty patterns
`"2024"` by `"2023"` or `"2025"`; an empty `old` is left untouched here.)
The recursion is driven by a `fuel` argument so that it is structural and
kernel reduction works; `strReplace` passes the string's length, which is
always sufficient because every step consumes at least one character. -/
def replGo (old new : List Char) : Nat → List Char → List Char
  | _, [] => []
  | 0, s => s
  | fuel + 1, c :: rest =>
    if !old.isEmpty && leadMatch old (c :: rest) then
      new ++ replGo old new fuel (List.drop (old.length - 1) rest)
    else
      c :: replGo old new fuel rest

/-- Python's `s.replace(old, new)` for non-empty `old`. -/
def strReplace (s old new : String) : String :=
  ⟨replGo old.toList new.toList s.toList.length s.toList⟩

/-- Python's `str.lower`, character by character.  (Lean's `Char.toLower`
lowercases the ASCII range; all names the code lowercases behave alike under
this and Python's `lower` as far as the claims are concerned, and both sides
of every comparison below go through the same function.) -/
def pyLower (s : String) : String :=
  ⟨s.toList.map Char.toLower⟩

/-- One row of the geocoding CSV (`self.file`), as used by
`collect_coordinates`: a place name and its coordinates. -/
structure GeoRow where
  name : String
  latitude : ℚ
  longitude : ℚ
deriving DecidableEq

/-- `Dataset.collect_coordinates` (lines 46-58): look the city up in the CSV
by case-insensitive containment of the query in the stored name, fall back to
case-insensitive exact equality, and raise when neither matches.  The first
matching row's coordinates are returned (`iloc[0]`).  Exceptions become
`Except.error` with the wrapped message produced by the outer handler.
The containment search is modelled here with literal-substring matching
(`strContainsSub`); in the source it is pandas `str.contains` with its
default `regex=True`, which coincides with the literal reading on the
metacharacter-free queries issued by the collection loop (this definition is
the one the loop claims use), but not on arbitrary patterns — the
regex-faithful variant is `collect_coordinates_re` below. -/
def collect_coordinates (file : List GeoRow) (city : String) : Except String (ℚ × ℚ) :=
  let city_lower := pyLower city
  match file.filter (fun r => strContainsSub (pyLower r.name) city_lower) with
  | row :: _ => .ok (row.latitude, row.longitude)
  | [] =>
    match file.filter (fun r => (pyLower r.name) == city_lower) with
    | row :: _ => .ok (row.latitude, row.longitude)
    | [] => .error ("Coordinate error for " ++ city ++
        ": No coordinates found for '" ++ city ++ "'")

/-- `collect_coordinates` with the exact-equality fallback removed: the
comparison function for claim C10 (refinement/equivalence).  It performs only
the containment search and raises the same error when that search is empty. -/
def collect_coordinates_without_fallback (file : List GeoRow) (city : String) :
    Except String (ℚ × ℚ) :=
  let city_lower := pyLower city
  match file.filter (fun r => strContainsSub (pyLower r.name) city_lower) with
  | row :: _ => .ok (row.latitude, row.longitude)
  | [] => .error ("Coordinate error for " ++ city ++
      ": No coordinates found for '" ++ city ++ "'")

/-- One token of the regular-expression pattern language of pandas'
default `regex=True` containment search, for the fragment this development
evaluates: a literal character, or the digit class `\d` (Python's `re`
matches it against any decimal digit).  Characters that are not
metacharacters are literals in Python's `re`; the fragment is faithful for
patterns built from such characters and `\d`. -/
inductive PatTok where
  | lit (c : Char)
  | digitClass

/-- Parse a pattern of the fragment: `\d` becomes the digit class and any
other character a literal. -/
def reParse : List Char → List PatTok
  | [] => []
  | '\\' :: 'd' :: rest => .digitClass :: reParse rest
  | c :: rest => .lit c :: reParse rest

/-- One pattern token against one character. -/
def reTokMatch : PatTok → Char → Bool
  | .lit a, c => a == c
  | .digitClass, c => c.isDigit

/-- The token sequence matches at the very beginning of the string. -/
def reLeadMatch : List PatTok → List Char → Bool
  | [], _ => true
  | _ :: _, [] => false
  | t :: ts, c :: cs => reTokMatch t c && reLeadMatch ts cs

/-- The token sequence matches somewhere in the string (`re.search`). -/
def reSearch (toks : List PatTok) : List Char → Bool
  | [] => reLeadMatch toks []
  | c :: rest => reLeadMatch toks (c :: rest) || reSearch toks rest

/-- pandas `Series.str.contains(pat)` with its default `regex=True`, on the
pattern fragment of `reParse`: the query is parsed as a regular expression
and searched anywhere in the string. -/
def strContainsRegex (s pat : String) : Bool :=
  reSearch (reParse pat.toList) s.toList

/-- `Dataset.collect_coordinates` (lines 46-58) with the containment search
modelled regex-faithfully: `df['name'].str.lower().str.contains(city_lower,
na=False)` on line 50 keeps pandas' default `regex=True`, so the query is a
regular-expression pattern (`strContainsRegex`), while the fallback on
line 52 compares for plain equality. -/
def collect_coordinates_re (file : List GeoRow) (city : String) :
    Except String (ℚ × ℚ) :=
  let city_lower := pyLower city
  match file.filter (fun r => strContainsRegex (pyLower r.name) city_lower) with
  | row :: _ => .ok (row.latitude, row.longitude)
  | [] =>
    match file.filter (fun r => (pyLower r.name) == city_lower) with
    | row :: _ => .ok (row.latitude, row.longitude)
    | [] => .error ("Coordinate error for " ++ city ++
        ": No coordinates found for '" ++ city ++ "'")

/-- `collect_coordinates_re` with the exact-equality fallback removed, for
comparison in claim C10's counterexample. -/
def collect_coordinates_re_without_fallback (file : List GeoRow) (city : String) :
    Except String (ℚ × ℚ) :=
  let city_lower := pyLower city
  match file.filter (fun r => strContainsRegex (pyLower r.name) city_lower) with
  | row :: _ => .ok (row.latitude, row.longitude)
  | [] => .error ("Coordinate error for " ++ city ++
      ": No coordinates found for '" ++ city ++ "'")

/-- The four parallel daily series returned by the weather API
(`daily.Variables(0..3).ValuesAsNumpy()` in `process_weather_data`). -/
structure DailyData where
  precipitation : List ℚ
  temperature : List ℚ
  daylight : List ℚ
  wind_speed : List ℚ
deriving DecidableEq

/-- `np.mean` on a list: sum divided by length.  (The empty-series case,
where numpy yields NaN, is never exercised by the claims below.) -/
def npMean (l : List ℚ) : ℚ :=
  l.sum / l.length

/-- `Dataset.process_weather_data` (lines 81-98): the arithmetic mean of each
of the four series.  The `duration` argument is accepted but unused by this
revision of the code. -/
def process_weather_data (daily : DailyData) (duration : Nat) : ℚ × ℚ × ℚ × ℚ :=
  let _ := duration
  (npMean daily.precipitation, npMean daily.temperature,
   npMean daily.daylight, npMean daily.wind_speed)

/-- The payload handed to `process_regional_trend` (lines 145-179): the
SerpAPI result dict.  `truthy` records whether the dict is non-empty (the
code tests `if not trend_data`); `interest_by_region` is the list of
`(location, extracted_value)` entries (`region.get("extracted_value", 0)`). -/
structure TrendData where
  truthy : Bool
  interest_by_region : List (String × ℚ)

/-- `Dataset.process_regional_trend` (lines 145-179): drop non-positive
scores, return the `0.1` baseline when no entry survives (or when the data
is missing/empty — those paths raise internally and the handler returns
`0.1`), otherwise `min 1 (mean / 100)`. -/
def process_regional_trend (trend_data : TrendData) : ℚ :=
  if !trend_data.truthy then 1/10
  else
    let interest_data := trend_data.interest_by_region
    if interest_data.isEmpty then 1/10
    else
      let region_scores :=
        (interest_data.map Prod.snd).filter (fun v => decide (0 < v))
      if region_scores.isEmpty then 1/10
      else min 1 (npMean region_scores / 100)

/-- A derived season range (`{'start': ..., 'end': ...}`); `endDate` models
the dict key `'end'`. -/
structure SeasonRange where
  startDate : String
  endDate : String
deriving DecidableEq

/-- Helper for `get_seasonal_ranges`: walk the ordered `(season, start)`
pairs; each range ends at the next season's start, and the last range wraps
to the first season's start with `"2024"` replaced by `"2025"`. -/
def seasonalRangesAux (firstDate : String) :
    List (String × String) → List (String × SeasonRange)
  | [] => []
  | [(name, s)] => [(name, ⟨s, strReplace firstDate "2024" "2025"⟩)]
  | (name, s) :: (n2, s2) :: rest =>
    (name, ⟨s, s2⟩) :: seasonalRangesAux firstDate ((n2, s2) :: rest)

/-- `Dataset.get_seasonal_ranges` (lines 181-199): for season `i`, the range
runs from its own start to the start of season `i+1`; the last season's end
is the first season's start with `"2024"` textually replaced by `"2025"`. -/
def get_seasonal_ranges (country_seasons : List (String × String)) :
    List (String × SeasonRange) :=
  match country_seasons with
  | [] => []
  | (_, s) :: _ => seasonalRangesAux s country_seasons

/-- The parameter dict built by `get_country_trends` for `serpapi_search`
(lines 125-133). -/
structure SerpParams where
  engine : String
  q : String
  geo : String
  date : String
  regions : String
  data_type : String
  api_key : String

/-- `Dataset.get_country_trends` (lines 106-143), with the network call
`serpapi_search` abstracted as the oracle `serp` (returning `none` on any
HTTP/API failure, exactly as the Python helper returns `None`).  Every
internal `raise` is caught by the enclosing handler, which returns `None`;
those paths are the `none` results here.  `"2024"` is textually replaced by
`"2023"` in both derived dates before querying. -/
def get_country_trends (geoTable : List (String × String))
    (countries_details : List (String × List (String × String)))
    (serp : SerpParams → Option TrendData) (api_key : String)
    (activity country season : String) : Option ℚ :=
  match List.lookup country geoTable with
  | none => none
  | some country_code =>
    if country_code = "" then none
    else
      match List.lookup country countries_details with
      | none => none
      | some country_cal =>
        match List.lookup season (get_seasonal_ranges country_cal) with
        | none => none
        | some season_dates =>
          let start_date := strReplace season_dates.startDate "2024" "2023"
          let end_date := strReplace season_dates.endDate "2024" "2023"
          match serp { engine := "google_trends", q := activity,
                       geo := country_code,
                       date := start_date ++ " " ++ end_date,
                       regions := "CITY", data_type := "GEO_MAP_0",
                       api_key := api_key } with
          | none => none
          | some results =>
            if !results.truthy then none
            else some (process_regional_trend results)

/-- `Dataset.collect_weather_data` (lines 60-79), with the HTTP fetch
abstracted as the oracle `meteo` delivering the four daily series for the
requested coordinates and dates (or an error).  On success the series are
aggregated by `process_weather_data`. -/
def collect_weather_data (meteo : ℚ → ℚ → String → String → Except String DailyData)
    (lat lon : ℚ) (start_date end_date : String) (duration : Nat) :
    Except String (ℚ × ℚ × ℚ × ℚ) :=
  match meteo lat lon start_date end_date with
  | .error e => .error ("Weather data error for " ++ toString lat ++ "," ++
      toString lon ++ ": " ++ e)
  | .ok daily => .ok (process_weather_data daily duration)

/-- One collected data point (the dict appended to `all_data`,
lines 259-270). -/
structure Row where
  country : String
  city : String
  activity : String
  season : String
  trend_score : ℚ
  avg_daily_precipitation : ℚ
  avg_daily_temperature : ℚ
  avg_daily_daylight : ℚ
  avg_daily_wind_speed : ℚ
  season_duration : Nat
deriving DecidableEq

/-- The mutable state of `run_optimized_data_collection`: the accumulated
rows `all_data` and the counter `failed_attempts`. -/
structure LoopState where
  all_data : List Row
  failed_attempts : Nat
deriving DecidableEq

/-- Result of processing the inner season loop of one region: the loop either
falls through (`ok`), executes one of the early `return` statements (`stop`),
or raises an exception that the per-region handler will catch (`exc`). -/
inductive StepResult where
  | ok (st : LoopState)
  | stop (st : LoopState)
  | exc (st : LoopState)
deriving DecidableEq

/-- Everything `Dataset` reads while collecting: its constructor arguments
(`file`, `countries_details`, `api_key`), the module-level configuration
tables (`Regions`, `Geo`, `activities`, `SEASON_DURATIONS`), and the two
network oracles (`serp` for `serpapi_search`, `meteo` for the open-meteo
fetch inside `collect_weather_data`). -/
structure Config where
  file : List GeoRow
  countries_details : List (String × List (String × String))
  regionsTable : List (String × List String)
  geoTable : List (String × String)
  activities : List String
  season_durations : List (String × List (String × Nat))
  serp : SerpParams → Option TrendData
  meteo : ℚ → ℚ → String → String → Except String DailyData
  api_key : String

/-- The innermost loop of `run_optimized_data_collection`
(lines 250-277): for each activity, first compare `failed_attempts` with
`max_failures = 50` (returning the accumulated rows when the ceiling is
reached — `Bool = true` signals that `return`), then fetch the trend score;
a `some` score appends one row, a `none` increments the counter. -/
def processActivities (cfg : Config) (country city season : String)
    (duration : Nat) (weather_data : ℚ × ℚ × ℚ × ℚ) :
    List String → LoopState → LoopState × Bool
  | [], st => (st, false)
  | activity :: rest, st =>
    if st.failed_attempts ≥ 50 then (st, true)
    else
      match get_country_trends cfg.geoTable cfg.countries_details cfg.serp
          cfg.api_key activity country season with
      | some trend_score =>
        let row : Row :=
          { country := country, city := city, activity := activity,
            season := season, trend_score := trend_score,
            avg_daily_precipitation := weather_data.1,
            avg_daily_temperature := weather_data.2.1,
            avg_daily_daylight := weather_data.2.2.1,
            avg_daily_wind_speed := weather_data.2.2.2,
            season_duration := duration }
        processActivities cfg country city season duration weather_data rest
          { all_data := st.all_data ++ [row],
            failed_attempts := st.failed_attempts }
      | none =>
        processActivities cfg country city season duration weather_data rest
          { all_data := st.all_data,
            failed_attempts := st.failed_attempts + 1 }

/-- The season loop of one region (lines 228-284): look up the duration
(default 90), derive the season's range (skipping the season when absent),
fetch the weather once per (region, season) — a weather failure raises out
to the per-region handler (`exc`) — then run the activity loop, and after it
`return` when 1000 rows have been accumulated. -/
def processSeasons (cfg : Config) (country city : String)
    (country_cal : List (String × String)) (lat lon : ℚ) :
    List String → LoopState → StepResult
  | [], st => .ok st
  | season :: rest, st =>
    let duration :=
      (List.lookup season ((List.lookup country cfg.season_durations).getD [])).getD 90
    match List.lookup season (get_seasonal_ranges country_cal) with
    | none => processSeasons cfg country city country_cal lat lon rest st
    | some season_dates =>
      match collect_weather_data cfg.meteo lat lon season_dates.startDate
          season_dates.endDate duration with
      | .error _ => .exc st
      | .ok weather_data =>
        match processActivities cfg country city season duration weather_data
            cfg.activities st with
        | (st2, true) => .stop st2
        | (st2, false) =>
          if st2.all_data.length ≥ 1000 then .stop st2
          else processSeasons cfg country city country_cal lat lon rest st2

/-- One iteration of the region loop (lines 217-291): the `try` block
resolves coordinates and runs the season loop; any exception lands in the
handler, which increments `failed_attempts` and returns the accumulated rows
when the ceiling is reached.  The `Bool` is the `return`-now signal. -/
def processCity (cfg : Config) (country city : String) (st : LoopState) :
    LoopState × Bool :=
  let inner : StepResult :=
    match collect_coordinates cfg.file city with
    | .error _ => .exc st
    | .ok (lat, lon) =>
      match List.lookup country cfg.countries_details with
      | none => .exc st
      | some country_cal =>
        processSeasons cfg country city country_cal lat lon
          (country_cal.map Prod.fst) st
  match inner with
  | .exc st' =>
    if st'.failed_attempts + 1 ≥ 50 then
      ({ all_data := st'.all_data, failed_attempts := st'.failed_attempts + 1 }, true)
    else
      ({ all_data := st'.all_data, failed_attempts := st'.failed_attempts + 1 }, false)
  | .stop st' => (st', true)
  | .ok st' => (st', false)

/-- The region loop of one country (line 217), propagating an early
`return`. -/
def processCities (cfg : Config) (country : String) :
    List String → LoopState → LoopState × Bool
  | [], st => (st, false)
  | city :: rest, st =>
    match processCity cfg country city st with
    | (st', true) => (st', true)
    | (st', false) => processCities cfg country rest st'

/-- The country loop (line 208): each country's region list is
`Regions.get(country, [])`. -/
def processCountries (cfg : Config) :
    List String → LoopState → LoopState × Bool
  | [], st => (st, false)
  | country :: rest, st =>
    let cities := (List.lookup country cfg.regionsTable).getD []
    match processCities cfg country cities st with
    | (st', true) => (st', true)
    | (st', false) => processCountries cfg rest st'

/-- `Dataset.run_optimized_data_collection` (lines 201-293).  The Python
function returns `pd.DataFrame(all_data)`; the embedding returns the final
`LoopState`, whose `all_data` is the content of that table (the counter is
exposed alongside for verification of the failure-budget behaviour). -/
def run_optimized_data_collection (cfg : Config) : LoopState :=
  (processCountries cfg (cfg.countries_details.map Prod.fst)
    { all_data := [], failed_attempts := 0 }).1

/-- The module-level `Country_details` table (lines 316-332): the ordered
season calendar of every configured country. -/
def Country_details : List (String × List (String × String)) :=
  [("France", [("spring", "2024-03-01"), ("summer", "2024-06-01"),
               ("fall", "2024-09-01"), ("winter", "2024-12-01")]),
   ("Spain", [("spring", "2024-03-01"), ("summer", "2024-06-01"),
              ("fall", "2024-09-01"), ("winter", "2024-12-01")]),
   ("Italy", [("spring", "2024-03-01"), ("summer", "2024-06-01"),
              ("fall", "2024-09-01"), ("winter", "2024-12-01")]),
   ("United Kingdom", [("spring", "2024-03-01"), ("summer", "2024-06-01"),
                       ("fall", "2024-09-01"), ("winter", "2024-12-01")]),
   ("Japan", [("spring", "2024-03-01"), ("summer", "2024-06-01"),
              ("fall", "2024-09-01"), ("winter", "2024-12-01")]),
   ("United States", [("spring", "2024-03-01"), ("summer", "2024-06-01"),
                      ("fall", "2024-09-01"), ("winter", "2024-12-01")]),
   ("Canada", [("spring", "2024-03-01"), ("summer", "2024-06-01"),
               ("fall", "2024-09-01"), ("winter", "2024-12-01")]),
   ("Turkey", [("spring", "2024-03-01"), ("summer", "2024-06-01"),
               ("fall", "2024-09-01"), ("winter", "2024-12-01")]),
   ("Australia", [("spring", "2024-09-01"), ("summer", "2024-12-01"),
                  ("fall", "2024-03-01"), ("winter", "2024-06-01")]),
   ("Thailand", [("dry", "2024-11-01"), ("hot", "2024-03-01"),
                 ("wet", "2024-06-01")]),
   ("Brazil", [("dry", "2024-05-01"), ("wet", "2024-10-01")]),
   ("Mexico", [("dry", "2024-11-01"), ("wet", "2024-05-01")]),
   ("Egypt", [("winter", "2024-12-01"), ("summer", "2024-06-01")]),
   ("Kenya", [("dry", "2024-06-01"), ("wet", "2024-03-01")]),
   ("Malaysia", [("dry", "2024-05-01"), ("wet", "2024-11-01")])]

/-- The numeric value of an ISO `YYYY-MM-DD` date string, obtained by
concatenating its digits (so `"2024-12-01"` becomes `20241201`).  Absolute
chronological order of such dates coincides with the order of these
numbers. -/
def dateVal (s : String) : Nat :=
  s.toList.foldl (fun a c => if c.isDigit then a * 10 + (c.toNat - 48) else a) 0

/-- Concrete run configuration for claim C2's counterexample: one country,
one region, one season, an activity vocabulary of 1001 activities, and
collaborators that always succeed (the trends oracle returns one region
scoring 50 on every call). -/
def c2cfg : Config :=
  { file := [⟨"r", 0, 0⟩],
    countries_details := [("C", [("s", "2024-03-01")])],
    regionsTable := [("C", ["r"])],
    geoTable := [("C", "CC")],
    activities := List.replicate 1001 "a",
    season_durations := [],
    serp := fun _ => some ⟨true, [("L", 50)]⟩,
    meteo := fun _ _ _ _ => .ok ⟨[1], [1], [1], [1]⟩,
    api_key := "k" }

/-- Concrete run configuration for claim C5's counterexample: 50 activities
whose trend lookups all fail, one region that geocodes (so all 50 failures
accrue inside its activity loop), and a second region whose geocoding
raises while the counter already stands at the ceiling. -/
def c5cfg : Config :=
  { file := [⟨"r1", 1, 2⟩],
    countries_details := [("C", [("s", "2024-03-01")])],
    regionsTable := [("C", ["r1", "zz"])],
    geoTable := [("C", "CC")],
    activities := List.replicate 50 "a",
    season_durations := [],
    serp := fun _ => none,
    meteo := fun _ _ _ _ => .ok ⟨[1], [1], [1], [1]⟩,
    api_key := "k" }

/-- Concrete run configuration for claim C9's counterexample: 49 regions
that fail geocoding, then region `"w"` whose weather fetch raises with the
counter at 49, then region `"g"` that would succeed on every collaborator
call — but is never reached. -/
def c9cfg : Config :=
  { file := [⟨"w", 5, 5⟩, ⟨"g", 7, 7⟩],
    countries_details := [("C", [("s", "2024-03-01")])],
    regionsTable := [("C", List.replicate 49 "q" ++ ["w", "g"])],
    geoTable := [("C", "CC")],
    activities := ["a"],
    season_durations := [],
    serp := fun _ => some ⟨true, [("L", 50)]⟩,
    meteo := fun lat _ _ _ =>
      if lat = 5 then .error "boom" else .ok ⟨[1], [1], [1], [1]⟩,
    api_key := "k" }

/-- Concrete configuration for claim C3's witness: the trends oracle always
fails and the weather oracle always raises. -/
def c3wcfg : Config :=
  { file := [⟨"R", 3, 4⟩],
    countries_details := [("C", [("sa", "2024-01-01"), ("sb", "2024-06-01")])],
    regionsTable := [("C", ["R"])],
    geoTable := [("C", "CC")],
    activities := ["x"],
    season_durations := [],
    serp := fun _ => none,
    meteo := fun _ _ _ _ => .error "down",
    api_key := "k" }

/-- Concrete configuration for claim C7's witness: one country with two
seasons (durations 7 and 9), one region, three activities, all
collaborators succeeding, trends returning a single region scoring 50. -/
def c7wcfg : Config :=
  { file := [⟨"R", 3, 4⟩],
    countries_details := [("C", [("sa", "2024-01-01"), ("sb", "2024-06-01")])],
    regionsTable := [("C", ["R"])],
    geoTable := [("C", "CC")],
    activities := ["x", "y", "z"],
    season_durations := [("C", [("sa", 7), ("sb", 9)])],
    serp := fun _ => some ⟨true, [("L", 50)]⟩,
    meteo := fun _ _ _ _ => .ok ⟨[1], [1], [1], [1]⟩,
    api_key := "k" }

/-- Concrete configuration for claim C9's witness: one region that geocodes
successfully and a weather oracle that always raises. -/
def c9wcfg : Config :=
  { file := [⟨"R", 3, 4⟩],
    countries_details := [("C", [("sa", "2024-01-01"), ("sb", "2024-06-01")])],
    regionsTable := [("C", ["R", "R2"])],
    geoTable := [("C", "CC")],
    activities := ["x"],
    season_durations := [],
    serp := fun _ => none,
    meteo := fun _ _ _ _ => .error "down",
    api_key := "k" }

theorem leadMatch_refl (p : List Char) : leadMatch p p = true := by
  induction p with
  | nil => rfl
  | cons c rest ih => simp [leadMatch, ih]

theorem subMatch_refl (p : List Char) : subMatch p p = true := by
  cases p with
  | nil => rfl
  | cons c rest => simp [subMatch, leadMatch_refl]

/-- Claim C10 (counterexample): under the program's regex interpretation of
the containment pattern (pandas `str.contains` keeps its default
`regex=True`), the exact-match fallback in `collect_coordinates` is
reachable, so the function is not extensionally equal to the variant with
the fallback removed: for the query `\d` against a table whose one row is
named `\d`, the regex search matches nothing (the name holds no digit),
the exact-equality search matches the row, and the two functions return
different results at the same input. -/
theorem c10_fallback_dead_code_counterexample :
    strContainsRegex (pyLower "\\d") (pyLower "\\d") = false ∧
    (pyLower "\\d" == pyLower "\\d") = true ∧
    collect_coordinates_re [{ name := "\\d", latitude := 1, longitude := 2 }] "\\d"
      = .ok (1, 2) ∧
    collect_coordinates_re_without_fallback
        [{ name := "\\d", latitude := 1, longitude := 2 }] "\\d"
      = .error ("Coordinate error for \\d: No coordinates found for '\\d'") :=
  ⟨by decide, by decide, rfl, rfl⟩

/-- Claim C10 (amended): the exact-match fallback in `collect_coordinates`
is dead code under the literal-substring reading of the containment search
(the behaviour of the pandas matcher on every metacharacter-free query,
such as each configured region name) — whenever the case-insensitive
literal containment search finds no row, the case-insensitive
exact-equality search finds none either (a string contains itself), so the
function is extensionally equal to the variant with the fallback removed:
same error in the same cases, same pair otherwise. -/
theorem c10_fallback_dead_code :
    ∀ (file : List GeoRow) (city : String),
      collect_coordinates file city = collect_coordinates_without_fallback file city := by
  intro file city
  simp only [collect_coordinates, collect_coordinates_without_fallback]
  cases hc : file.filter (fun r => strContainsSub (pyLower r.name) (pyLower city)) with
  | cons r rest => rfl
  | nil =>
    have he : file.filter (fun r => (pyLower r.name) == pyLower city) = [] := by
      rw [List.filter_eq_nil_iff] at hc ⊢
      intro r hr hEq
      apply hc r hr
      have : pyLower r.name = pyLower city := by
        exact eq_of_beq hEq
      show strContainsSub (pyLower r.name) (pyLower city) = true
      rw [this]
      exact subMatch_refl _
    rw [he]

/-- Claim C8: weather aggregation of four constant series `[c, c, c]`
returns `c` for each of the four aggregates, for every `duration`. -/
theorem c8_constant_weather_series :
    ∀ (c : ℚ) (duration : Nat),
      process_weather_data ⟨[c, c, c], [c, c, c], [c, c, c], [c, c, c]⟩ duration
        = (c, c, c, c) := by
  intro c duration
  have h : npMean [c, c, c] = c := by
    simp only [npMean, List.sum_cons, List.sum_nil, List.length_cons,
      List.length_nil]
    push_cast
    rw [div_eq_iff (by norm_num : ((3:ℚ)) ≠ 0)]
    ring
  simp [process_weather_data, h]

/-- Claim C6 (counterexample): on a single-season calendar,
`get_seasonal_ranges` does not fail — it returns a mapping with one range
running from the season's start to the same date one year later. -/
theorem c6_single_season_counterexample :
    get_seasonal_ranges [("only", "2024-03-01")] =
      [("only", ⟨"2024-03-01", "2025-03-01"⟩)] := by decide

/-- Claim C6 (amended): applied to a single-season calendar,
`get_seasonal_ranges` returns (rather than raising) a single range whose
end is the start date with `"2024"` replaced by `"2025"`. -/
theorem c6_single_season_amended :
    ∀ name startD : String,
      get_seasonal_ranges [(name, startD)] =
        [(name, ⟨startD, strReplace startD "2024" "2025"⟩)] :=
  fun _ _ => rfl

/-- Claim C4 (code bug, evaluated at the failing input): for Australia's
configured calendar (spring 2024-09-01, summer 2024-12-01, fall 2024-03-01,
winter 2024-06-01), the derived `summer` range ends on 2024-03-01 — strictly
before its own start 2024-12-01 — and the derived `winter` range runs from
2024-06-01 to 2025-09-01, more than a full year, so the four ranges neither
have `end` after `start` everywhere nor partition the year. -/
theorem c4_australia_season_ranges_bug :
    List.lookup "summer" (get_seasonal_ranges
        ((List.lookup "Australia" Country_details).getD [])) =
      some ⟨"2024-12-01", "2024-03-01"⟩ ∧
    dateVal "2024-03-01" < dateVal "2024-12-01" ∧
    List.lookup "winter" (get_seasonal_ranges
        ((List.lookup "Australia" Country_details).getD [])) =
      some ⟨"2024-06-01", "2025-09-01"⟩ ∧
    dateVal "2024-06-01" + 10000 < dateVal "2025-09-01" := by decide

/-- Claim C1 (counterexample): a single region entry with raw score 5 is
positive, yet `process_regional_trend` returns `5/100 = 1/20`, which is
strictly below the claimed lower bound `0.1`. -/
theorem c1_trend_normalization_counterexample :
    process_regional_trend ⟨true, [("X", (5:ℚ))]⟩ = 1/20 ∧
    ¬ ((1:ℚ)/10 ≤ process_regional_trend ⟨true, [("X", (5:ℚ))]⟩) := by
  have h : process_regional_trend ⟨true, [("X", (5:ℚ))]⟩ = 1/20 := by
    simp only [process_regional_trend, npMean]
    norm_num [List.filter]
  refine ⟨h, ?_⟩
  rw [h]
  norm_num

/-- Claim C1 (amended): given region entries of which at least one has a
positive raw score, `process_regional_trend` returns exactly
`min 1 (mean of the positive scores / 100)`, a value in `(0, 1]` (not
necessarily `≥ 0.1`); given an empty list or only non-positive scores it
returns exactly `0.1`. -/
theorem c1_trend_normalization_amended :
    ∀ l : List (String × ℚ),
      ((∃ p ∈ l, 0 < p.2) →
        process_regional_trend ⟨true, l⟩ =
          min 1 (npMean ((l.map Prod.snd).filter (fun v => decide (0 < v))) / 100) ∧
        0 < process_regional_trend ⟨true, l⟩ ∧
        process_regional_trend ⟨true, l⟩ ≤ 1) ∧
      ((∀ p ∈ l, p.2 ≤ 0) → process_regional_trend ⟨true, l⟩ = 1/10) := by
  intro l
  constructor
  · rintro ⟨p, hpmem, hppos⟩
    have hne : l ≠ [] := by
      rintro rfl
      exact absurd hpmem (List.not_mem_nil p)
    have hmem : p.2 ∈ (l.map Prod.snd).filter (fun v => decide (0 < v)) :=
      List.mem_filter.mpr ⟨List.mem_map_of_mem Prod.snd hpmem, by simpa using hppos⟩
    have hfne : (l.map Prod.snd).filter (fun v => decide (0 < v)) ≠ [] := by
      intro h0
      rw [h0] at hmem
      exact absurd hmem (List.not_mem_nil _)
    have hpos : ∀ x ∈ (l.map Prod.snd).filter (fun v => decide (0 < v)), 0 < x := by
      intro x hx
      have := (List.mem_filter.mp hx).2
      simpa using this
    have heq : process_regional_trend ⟨true, l⟩ =
        min 1 (npMean ((l.map Prod.snd).filter (fun v => decide (0 < v))) / 100) := by
      simp only [process_regional_trend, Bool.not_true, Bool.false_eq_true,
        if_false, List.isEmpty_iff]
      rw [if_neg hne, if_neg hfne]
    have hsum : 0 < ((l.map Prod.snd).filter (fun v => decide (0 < v))).sum :=
      List.sum_pos _ hpos hfne
    have hlenq : (0:ℚ) < ((l.map Prod.snd).filter (fun v => decide (0 < v))).length := by
      exact_mod_cast List.length_pos.mpr hfne
    have hmean : 0 < npMean ((l.map Prod.snd).filter (fun v => decide (0 < v))) :=
      div_pos hsum hlenq
    refine ⟨heq, ?_, ?_⟩
    · rw [heq]
      exact lt_min one_pos (div_pos hmean (by norm_num))
    · rw [heq]
      exact min_le_left _ _
  · intro h
    rcases hl : l with _ | ⟨a, as⟩
    · rfl
    · have hfilter : ((l.map Prod.snd).filter (fun v => decide (0 < v))) = [] := by
        rw [List.filter_eq_nil_iff]
        intro x hx
        rcases List.mem_map.mp hx with ⟨p, hp, rfl⟩
        simpa using not_lt.mpr (h p hp)
      rw [hl] at hfilter
      simp only [process_regional_trend, Bool.not_true, Bool.false_eq_true,
        if_false, List.isEmpty_iff]
      rw [if_neg (by simp : ¬(a :: as) = []), if_pos hfilter]

/-- Witness for the amended claim C1 at the concrete input `[("X", 30)]`. -/
theorem c1_trend_normalization_witness :
    0 < process_regional_trend ⟨true, [("X", (30:ℚ))]⟩ ∧
    process_regional_trend ⟨true, [("X", (30:ℚ))]⟩ ≤ 1 :=
  ((c1_trend_normalization_amended [("X", (30:ℚ))]).1
    ⟨("X", (30:ℚ)), by simp, by norm_num⟩).2

/-- Claim C3: for every trend query the dates sent to the trends
collaborator are exactly the derived season-range dates with `"2024"`
textually replaced by `"2023"` (both the start and the end, including the
wrapped end date of the last season, where the replacement leaves the
`2025` year untouched), while the weather query for the same
(region, season) is issued with the unshifted derived dates. -/
theorem c3_trend_date_year_shift :
    (∀ (geoTable : List (String × String))
       (countries_details : List (String × List (String × String)))
       (serp : SerpParams → Option TrendData) (api_key : String)
       (activity country season code : String)
       (cal : List (String × String)) (rng : SeasonRange),
       List.lookup country geoTable = some code → code ≠ "" →
       List.lookup country countries_details = some cal →
       List.lookup season (get_seasonal_ranges cal) = some rng →
       get_country_trends geoTable countries_details serp api_key activity country season =
         match serp { engine := "google_trends", q := activity, geo := code,
                      date := strReplace rng.startDate "2024" "2023" ++ " " ++
                              strReplace rng.endDate "2024" "2023",
                      regions := "CITY", data_type := "GEO_MAP_0",
                      api_key := api_key } with
         | none => none
         | some results =>
           if !results.truthy then none
           else some (process_regional_trend results))
    ∧
    (∀ (cfg : Config) (country city : String)
       (country_cal : List (String × String)) (lat lon : ℚ)
       (season : String) (rest : List String) (st : LoopState)
       (rng : SeasonRange),
       List.lookup season (get_seasonal_ranges country_cal) = some rng →
       processSeasons cfg country city country_cal lat lon (season :: rest) st =
         match collect_weather_data cfg.meteo lat lon rng.startDate rng.endDate
             ((List.lookup season
               ((List.lookup country cfg.season_durations).getD [])).getD 90) with
         | .error _ => .exc st
         | .ok weather_data =>
           match processActivities cfg country city season
               ((List.lookup season
                 ((List.lookup country cfg.season_durations).getD [])).getD 90)
               weather_data cfg.activities st with
           | (st2, true) => .stop st2
           | (st2, false) =>
             if st2.all_data.length ≥ 1000 then .stop st2
             else processSeasons cfg country city country_cal lat lon rest st2) := by
  constructor
  · intro geoTable countries_details serp api_key activity country season code cal rng
      h1 h2 h3 h4
    simp only [get_country_trends, h1, h3, h4, if_neg h2]
  · intro cfg country city country_cal lat lon season rest st rng h
    conv_lhs => rw [processSeasons]
    rw [h]

/-- Witness for claim C3: both parts applied at a concrete configuration —
the trends collaborator fails, so the trend lookup is `none`; the weather
collaborator raises, so the season step raises to the per-region handler. -/
theorem c3_trend_date_year_shift_witness :
    get_country_trends c3wcfg.geoTable c3wcfg.countries_details c3wcfg.serp
      c3wcfg.api_key "x" "C" "sb" = none ∧
    processSeasons c3wcfg "C" "R" [("sa", "2024-01-01"), ("sb", "2024-06-01")]
      3 4 ["sa"] ⟨[], 0⟩ = .exc ⟨[], 0⟩ := by
  constructor
  · rw [c3_trend_date_year_shift.1 c3wcfg.geoTable c3wcfg.countries_details
      c3wcfg.serp c3wcfg.api_key "x" "C" "sb" "CC"
      [("sa", "2024-01-01"), ("sb", "2024-06-01")] ⟨"2024-06-01", "2025-01-01"⟩
      (by decide) (by decide) (by decide) (by decide)]
    rfl
  · rw [c3_trend_date_year_shift.2 c3wcfg "C" "R"
      [("sa", "2024-01-01"), ("sb", "2024-06-01")] 3 4 "sa" [] ⟨[], 0⟩
      ⟨"2024-01-01", "2024-06-01"⟩ (by decide)]
    rfl

theorem get_country_trends_step (geoTable : List (String × String))
    (countries_details : List (String × List (String × String)))
    (serp : SerpParams → Option TrendData) (api_key : String)
    (activity country season code : String)
    (cal : List (String × String)) (rng : SeasonRange)
    (h1 : List.lookup country geoTable = some code) (h2 : code ≠ "")
    (h3 : List.lookup country countries_details = some cal)
    (h4 : List.lookup season (get_seasonal_ranges cal) = some rng) :
    get_country_trends geoTable countries_details serp api_key activity country season =
      match serp { engine := "google_trends", q := activity, geo := code,
                   date := strReplace rng.startDate "2024" "2023" ++ " " ++
                           strReplace rng.endDate "2024" "2023",
                   regions := "CITY", data_type := "GEO_MAP_0",
                   api_key := api_key } with
      | none => none
      | some results =>
        if !results.truthy then none
        else some (process_regional_trend results) := by
  simp only [get_country_trends, h1, h3, h4, if_neg h2]

theorem processSeasons_cons_step (cfg : Config) (country city : String)
    (country_cal : List (String × String)) (lat lon : ℚ)
    (season : String) (rest : List String) (st : LoopState) (rng : SeasonRange)
    (h : List.lookup season (get_seasonal_ranges country_cal) = some rng) :
    processSeasons cfg country city country_cal lat lon (season :: rest) st =
      match collect_weather_data cfg.meteo lat lon rng.startDate rng.endDate
          ((List.lookup season
            ((List.lookup country cfg.season_durations).getD [])).getD 90) with
      | .error _ => .exc st
      | .ok weather_data =>
        match processActivities cfg country city season
            ((List.lookup season
              ((List.lookup country cfg.season_durations).getD [])).getD 90)
            weather_data cfg.activities st with
        | (st2, true) => .stop st2
        | (st2, false) =>
          if st2.all_data.length ≥ 1000 then .stop st2
          else processSeasons cfg country city country_cal lat lon rest st2 := by
  conv_lhs => rw [processSeasons]
  rw [h]

/-- Claim C7: with one country holding exactly two seasons, one region, and
an activity vocabulary of three activities, and with the geocoder and the
weather collaborator always succeeding while the trends collaborator returns
a single positive regional score on every call, the collection loop returns
exactly 6 rows, and each row's `season_duration` is the configured
duration-table value for that row's season. -/
theorem c7_two_seasons_three_activities :
    ∀ (cfg : Config) (country season1 season2 date1 date2 region : String)
      (a1 a2 a3 : String) (d1 d2 : Nat) (code : String) (lat lon : ℚ)
      (loc : SerpParams → String) (score : SerpParams → ℚ),
      cfg.countries_details = [(country, [(season1, date1), (season2, date2)])] →
      cfg.regionsTable = [(country, [region])] →
      cfg.activities = [a1, a2, a3] →
      cfg.season_durations = [(country, [(season1, d1), (season2, d2)])] →
      List.lookup country cfg.geoTable = some code → code ≠ "" →
      season1 ≠ season2 →
      collect_coordinates cfg.file region = .ok (lat, lon) →
      (∀ la lo ds de, ∃ d, cfg.meteo la lo ds de = .ok d) →
      (∀ p, cfg.serp p = some ⟨true, [(loc p, score p)]⟩) →
      (∀ p, 0 < score p) →
      (run_optimized_data_collection cfg).all_data.map
          (fun row => (row.season, row.season_duration)) =
        [(season1, d1), (season1, d1), (season1, d1),
         (season2, d2), (season2, d2), (season2, d2)] ∧
      (run_optimized_data_collection cfg).all_data.length = 6 := by
  intro cfg country s1 s2 t1 t2 region a1 a2 a3 d1 d2 code lat lon loc score
    hcd hreg hact hdur hgeo hcode hne hco hmet hserp _hpos
  have hne' : (s2 == s1) = false := beq_eq_false_iff_ne.mpr (Ne.symm hne)
  have hcal : List.lookup country cfg.countries_details
      = some [(s1, t1), (s2, t2)] := by
    rw [hcd]; simp [List.lookup]
  have hr1 : List.lookup s1 (get_seasonal_ranges [(s1, t1), (s2, t2)])
      = some ⟨t1, t2⟩ := by
    simp [get_seasonal_ranges, seasonalRangesAux, List.lookup]
  have hr2 : List.lookup s2 (get_seasonal_ranges [(s1, t1), (s2, t2)])
      = some ⟨t2, strReplace t1 "2024" "2025"⟩ := by
    simp [get_seasonal_ranges, seasonalRangesAux, List.lookup, hne']
  have hd1 : (List.lookup s1
      ((List.lookup country cfg.season_durations).getD [])).getD 90 = d1 := by
    rw [hdur]; simp [List.lookup]
  have hd2 : (List.lookup s2
      ((List.lookup country cfg.season_durations).getD [])).getD 90 = d2 := by
    rw [hdur]; simp [List.lookup, hne']
  -- every trend lookup succeeds
  have htrend : ∀ (a s : String) (rng : SeasonRange),
      List.lookup s (get_seasonal_ranges [(s1, t1), (s2, t2)]) = some rng →
      ∃ t, get_country_trends cfg.geoTable cfg.countries_details cfg.serp
          cfg.api_key a country s = some t := by
    intro a s rng hrng
    rw [get_country_trends_step cfg.geoTable cfg.countries_details cfg.serp
      cfg.api_key a country s code [(s1, t1), (s2, t2)] rng hgeo hcode hcal hrng]
    rw [hserp]
    exact ⟨_, rfl⟩
  -- the three-activity loop: appends exactly three rows, no failure
  have hacts : ∀ (s : String) (dur : Nat) (w : ℚ × ℚ × ℚ × ℚ)
      (st : LoopState) (rng : SeasonRange),
      List.lookup s (get_seasonal_ranges [(s1, t1), (s2, t2)]) = some rng →
      st.failed_attempts = 0 →
      (processActivities cfg country region s dur w [a1, a2, a3] st).2 = false ∧
      (processActivities cfg country region s dur w [a1, a2, a3] st).1.failed_attempts = 0 ∧
      (processActivities cfg country region s dur w [a1, a2, a3] st).1.all_data.map
          (fun row => (row.season, row.season_duration))
        = st.all_data.map (fun row => (row.season, row.season_duration))
            ++ [(s, dur), (s, dur), (s, dur)] := by
    intro s dur w st rng hrng hf0
    obtain ⟨q1, hq1⟩ := htrend a1 s rng hrng
    obtain ⟨q2, hq2⟩ := htrend a2 s rng hrng
    obtain ⟨q3, hq3⟩ := htrend a3 s rng hrng
    simp only [processActivities, hq1, hq2, hq3, hf0]
    norm_num
  -- weather values for the two seasons
  obtain ⟨w1, hw1⟩ := hmet lat lon t1 t2
  obtain ⟨w2, hw2⟩ := hmet lat lon t2 (strReplace t1 "2024" "2025")
  obtain ⟨hb1, hf1, hm1⟩ := hacts s1 d1 (process_weather_data w1 d1)
    ⟨[], 0⟩ ⟨t1, t2⟩ hr1 rfl
  have hlen1 : (processActivities cfg country region s1 d1
      (process_weather_data w1 d1) [a1, a2, a3] ⟨[], 0⟩).1.all_data.length = 3 := by
    have := congrArg List.length hm1
    simpa using this
  obtain ⟨hb2, hf2, hm2⟩ := hacts s2 d2 (process_weather_data w2 d2)
    (processActivities cfg country region s1 d1
      (process_weather_data w1 d1) [a1, a2, a3] ⟨[], 0⟩).1
    ⟨t2, strReplace t1 "2024" "2025"⟩ hr2 hf1
  have hlen2 : (processActivities cfg country region s2 d2
      (process_weather_data w2 d2) [a1, a2, a3]
      (processActivities cfg country region s1 d1
        (process_weather_data w1 d1) [a1, a2, a3] ⟨[], 0⟩).1).1.all_data.length = 6 := by
    have := congrArg List.length hm2
    simp [List.length_map, List.length_append] at this
    omega
  have hseasons : processSeasons cfg country region [(s1, t1), (s2, t2)] lat lon
      [s1, s2] ⟨[], 0⟩ =
      .ok (processActivities cfg country region s2 d2
        (process_weather_data w2 d2) [a1, a2, a3]
        (processActivities cfg country region s1 d1
          (process_weather_data w1 d1) [a1, a2, a3] ⟨[], 0⟩).1).1 := by
    rw [processSeasons_cons_step cfg country region [(s1, t1), (s2, t2)] lat lon
      s1 [s2] ⟨[], 0⟩ ⟨t1, t2⟩ hr1, hd1, hact]
    simp only [collect_weather_data, hw1]
    split
    · rename_i st2 heq
      rw [heq] at hb1
      simp at hb1
    · rename_i st2 heq
      have hst : st2 = (processActivities cfg country region s1 d1
          (process_weather_data w1 d1) [a1, a2, a3] ⟨[], 0⟩).1 := by
        have := congrArg Prod.fst heq
        simpa using this.symm
      subst hst
      rw [if_neg (by omega)]
      rw [processSeasons_cons_step cfg country region [(s1, t1), (s2, t2)] lat lon
        s2 [] _ ⟨t2, strReplace t1 "2024" "2025"⟩ hr2, hd2, hact]
      simp only [collect_weather_data, hw2]
      split
      · rename_i st3 heq2
        rw [heq2] at hb2
        simp at hb2
      · rename_i st3 heq2
        have hst3 : st3 = (processActivities cfg country region s2 d2
            (process_weather_data w2 d2) [a1, a2, a3]
            (processActivities cfg country region s1 d1
              (process_weather_data w1 d1) [a1, a2, a3] ⟨[], 0⟩).1).1 := by
          have := congrArg Prod.fst heq2
          simpa using this.symm
        subst hst3
        rw [if_neg (by omega)]
        rfl
  have hrun : run_optimized_data_collection cfg =
      (processActivities cfg country region s2 d2
        (process_weather_data w2 d2) [a1, a2, a3]
        (processActivities cfg country region s1 d1
          (process_weather_data w1 d1) [a1, a2, a3] ⟨[], 0⟩).1).1 := by
    simp only [run_optimized_data_collection, hcd, List.map]
    simp only [processCountries, hreg, List.lookup, beq_self_eq_true,
      Option.getD_some]
    simp only [processCities, processCity, hco, hcal, List.map]
    rw [hseasons]
  constructor
  · rw [hrun, hm2, hm1]
    simp
  · rw [hrun]
    exact hlen2

/-- Witness for claim C7 at the concrete configuration `c7wcfg`. -/
theorem c7_two_seasons_three_activities_witness :
    (run_optimized_data_collection c7wcfg).all_data.map
        (fun row => (row.season, row.season_duration)) =
      [("sa", 7), ("sa", 7), ("sa", 7), ("sb", 9), ("sb", 9), ("sb", 9)] ∧
    (run_optimized_data_collection c7wcfg).all_data.length = 6 :=
  c7_two_seasons_three_activities c7wcfg "C" "sa" "sb" "2024-01-01" "2024-06-01"
    "R" "x" "y" "z" 7 9 "CC" 3 4 (fun _ => "L") (fun _ => 50)
    rfl rfl rfl rfl (by decide) (by decide) (by decide) rfl
    (fun _ _ _ _ => ⟨⟨[1], [1], [1], [1]⟩, rfl⟩)
    (fun _ => rfl) (fun _ => by norm_num)

theorem pa_len (cfg : Config) (country city season : String) (duration : Nat)
    (w : ℚ × ℚ × ℚ × ℚ) : ∀ (acts : List String) (st : LoopState),
    (processActivities cfg country city season duration w acts st).1.all_data.length
      ≤ st.all_data.length + acts.length := by
  intro acts
  induction acts with
  | nil => intro st; simp [processActivities]
  | cons a rest ih =>
    intro st
    simp only [processActivities]
    split
    · simp
    · split
      · refine le_trans (ih _) ?_
        simp only [List.length_append, List.length_cons, List.length_nil]
        omega
      · refine le_trans (ih _) ?_
        simp only [List.length_cons]
        omega

theorem ps_len (cfg : Config) (country city : String)
    (cal : List (String × String)) (lat lon : ℚ) :
    ∀ (seasons : List String) (st : LoopState),
    st.all_data.length ≤ 999 →
    (match processSeasons cfg country city cal lat lon seasons st with
     | .ok st' => st'.all_data.length ≤ 999
     | .stop st' => st'.all_data.length ≤ 999 + cfg.activities.length
     | .exc st' => st'.all_data.length ≤ 999) := by
  intro seasons
  induction seasons with
  | nil =>
    intro st h
    simpa [processSeasons] using h
  | cons s rest ih =>
    intro st h
    simp only [processSeasons]
    cases hlk : List.lookup s (get_seasonal_ranges cal) with
    | none =>
      simp only [hlk]
      exact ih st h
    | some sd =>
      simp only [hlk]
      cases hw : collect_weather_data cfg.meteo lat lon sd.startDate sd.endDate
          ((List.lookup s ((List.lookup country cfg.season_durations).getD [])).getD 90) with
      | error e =>
        simp only [hw]
        exact h
      | ok w =>
        simp only [hw]
        rcases hpa : processActivities cfg country city s
            ((List.lookup s ((List.lookup country cfg.season_durations).getD [])).getD 90)
            w cfg.activities st with ⟨st2, b⟩
        have hb := pa_len cfg country city s
          ((List.lookup s ((List.lookup country cfg.season_durations).getD [])).getD 90)
          w cfg.activities st
        rw [hpa] at hb
        simp only at hb
        cases b with
        | true =>
          simp only [hpa]
          omega
        | false =>
          simp only [hpa]
          by_cases hge : st2.all_data.length ≥ 1000
          · simp only [if_pos hge]
            omega
          · simp only [if_neg hge]
            exact ih st2 (by omega)

theorem pc_len (cfg : Config) (country city : String) (st : LoopState)
    (h : st.all_data.length ≤ 999) :
    (processCity cfg country city st).1.all_data.length
        ≤ 999 + cfg.activities.length ∧
    ((processCity cfg country city st).2 = false →
      (processCity cfg country city st).1.all_data.length ≤ 999) := by
  simp only [processCity]
  cases hco : collect_coordinates cfg.file city with
  | error e =>
    simp only [hco]
    constructor
    · split <;> simp <;> omega
    · intro _
      split <;> simpa using h
  | ok p =>
    rcases p with ⟨lat, lon⟩
    simp only [hco]
    cases hcd : List.lookup country cfg.countries_details with
    | none =>
      simp only [hcd]
      constructor
      · split <;> simp <;> omega
      · intro _
        split <;> simpa using h
    | some cal =>
      simp only [hcd]
      have hps := ps_len cfg country city cal lat lon (cal.map Prod.fst) st h
      cases hres : processSeasons cfg country city cal lat lon (cal.map Prod.fst) st with
      | ok st' =>
        rw [hres] at hps
        simp only [hres]
        exact ⟨by simpa using le_trans hps (by omega), fun _ => by simpa using hps⟩
      | stop st' =>
        rw [hres] at hps
        simp only [hres]
        exact ⟨by simpa using hps, fun hfalse => by simp at hfalse⟩
      | exc st' =>
        rw [hres] at hps
        simp only [hres]
        constructor
        · split <;> simpa using le_trans hps (by omega)
        · intro _
          split <;> simpa using hps

theorem pcs_len (cfg : Config) (country : String) :
    ∀ (cities : List String) (st : LoopState),
    st.all_data.length ≤ 999 →
    (processCities cfg country cities st).1.all_data.length
        ≤ 999 + cfg.activities.length ∧
    ((processCities cfg country cities st).2 = false →
      (processCities cfg country cities st).1.all_data.length ≤ 999) := by
  intro cities
  induction cities with
  | nil =>
    intro st h
    exact ⟨by simpa [processCities] using le_trans h (by omega),
           fun _ => by simpa [processCities] using h⟩
  | cons city rest ih =>
    intro st h
    simp only [processCities]
    have hc := pc_len cfg country city st h
    rcases hp : processCity cfg country city st with ⟨st', b⟩
    rw [hp] at hc
    simp only at hc
    cases b with
    | true =>
      simp only [hp]
      exact ⟨hc.1, fun hfalse => by simp at hfalse⟩
    | false =>
      simp only [hp]
      exact ih st' (hc.2 rfl)

theorem pco_len (cfg : Config) :
    ∀ (countries : List String) (st : LoopState),
    st.all_data.length ≤ 999 →
    (processCountries cfg countries st).1.all_data.length
        ≤ 999 + cfg.activities.length := by
  intro countries
  induction countries with
  | nil =>
    intro st h
    simpa [processCountries] using le_trans h (by omega)
  | cons country rest ih =>
    intro st h
    simp only [processCountries]
    have hc := pcs_len cfg country ((List.lookup country cfg.regionsTable).getD []) st h
    rcases hp : processCities cfg country
        ((List.lookup country cfg.regionsTable).getD []) st with ⟨st', b⟩
    rw [hp] at hc
    simp only at hc
    cases b with
    | true =>
      simp only [hp]
      exact hc.1
    | false =>
      simp only [hp]
      exact ih st' (hc.2 rfl)

/-- Claim C2 (amended): the failure-ceiling check runs at the start of each
activity iteration (before the trend fetch, not after an append), and the
row-count check runs once per season, after that season's whole activity
loop; consequently the returned table can exceed the 1000-row target, but
never holds more than `999 + (number of activities)` rows. -/
theorem c2_row_target_amended :
    ∀ cfg : Config,
      (run_optimized_data_collection cfg).all_data.length
        ≤ 999 + cfg.activities.length := by
  intro cfg
  simpa [run_optimized_data_collection] using
    pco_len cfg (cfg.countries_details.map Prod.fst)
      { all_data := [], failed_attempts := 0 } (by simp)

theorem processCities_cons (cfg : Config) (country city : String)
    (rest : List String) (st : LoopState) :
    processCities cfg country (city :: rest) st =
      match processCity cfg country city st with
      | (st', true) => (st', true)
      | (st', false) => processCities cfg country rest st' := rfl

theorem processCountries_cons (cfg : Config) (country : String)
    (rest : List String) (st : LoopState) :
    processCountries cfg (country :: rest) st =
      match processCities cfg country
          ((List.lookup country cfg.regionsTable).getD []) st with
      | (st', true) => (st', true)
      | (st', false) => processCountries cfg rest st' := rfl

theorem processCity_eq (cfg : Config) (country city : String) (st : LoopState)
    (lat lon : ℚ) (cal : List (String × String)) (res : StepResult)
    (hco : collect_coordinates cfg.file city = .ok (lat, lon))
    (hcd : List.lookup country cfg.countries_details = some cal)
    (hres : processSeasons cfg country city cal lat lon (cal.map Prod.fst) st = res) :
    processCity cfg country city st =
      match res with
      | .exc st' =>
        if st'.failed_attempts + 1 ≥ 50 then
          ({ all_data := st'.all_data,
             failed_attempts := st'.failed_attempts + 1 }, true)
        else
          ({ all_data := st'.all_data,
             failed_attempts := st'.failed_attempts + 1 }, false)
      | .stop st' => (st', true)
      | .ok st' => (st', false) := by
  cases res with
  | ok st' => simp only [processCity, hco, hcd, hres]
  | stop st' => simp only [processCity, hco, hcd, hres]
  | exc st' => simp only [processCity, hco, hcd, hres]

/-- Claim C2 (counterexample): in the run configured by `c2cfg` (one season,
1001 activities, all collaborator calls succeeding) the returned table holds
1001 rows — more than the configured target of 1000 — because the row-count
check only runs after a season's whole activity loop. -/
theorem c2_row_target_counterexample :
    (run_optimized_data_collection c2cfg).all_data.length = 1001 := by
  have hsome : get_country_trends c2cfg.geoTable c2cfg.countries_details
      c2cfg.serp c2cfg.api_key "a" "C" "s" =
      some (process_regional_trend ⟨true, [("L", 50)]⟩) := rfl
  have key : ∀ (n : Nat) (w : ℚ × ℚ × ℚ × ℚ) (st : LoopState),
      st.failed_attempts < 50 →
      (processActivities c2cfg "C" "r" "s" 90 w (List.replicate n "a") st).2 = false ∧
      (processActivities c2cfg "C" "r" "s" 90 w
        (List.replicate n "a") st).1.failed_attempts = st.failed_attempts ∧
      (processActivities c2cfg "C" "r" "s" 90 w
        (List.replicate n "a") st).1.all_data.length = st.all_data.length + n := by
    intro n
    induction n with
    | zero =>
      intro w st h
      simp [processActivities]
    | succ k ih =>
      intro w st h
      rw [List.replicate_succ]
      simp only [processActivities]
      rw [if_neg (by omega)]
      rw [hsome]
      have H := ih w
        { all_data := st.all_data ++
            [{ country := "C", city := "r", activity := "a", season := "s",
               trend_score := process_regional_trend ⟨true, [("L", 50)]⟩,
               avg_daily_precipitation := w.1, avg_daily_temperature := w.2.1,
               avg_daily_daylight := w.2.2.1, avg_daily_wind_speed := w.2.2.2,
               season_duration := 90 }],
          failed_attempts := st.failed_attempts } h
      refine ⟨H.1, H.2.1, ?_⟩
      rw [H.2.2]
      simp only [List.length_append, List.length_cons, List.length_nil]
      omega
  obtain ⟨hb, hf, hl⟩ := key 1001
    (process_weather_data ⟨[1], [1], [1], [1]⟩ 90) ⟨[], 0⟩ (by simp)
  set PA := processActivities c2cfg "C" "r" "s" 90
    (process_weather_data ⟨[1], [1], [1], [1]⟩ 90)
    (List.replicate 1001 "a") ⟨[], 0⟩ with hPA
  have hseq : processSeasons c2cfg "C" "r" [("s", "2024-03-01")] 0 0 ["s"] ⟨[], 0⟩
      = .stop PA.1 := by
    rw [processSeasons_cons_step c2cfg "C" "r" [("s", "2024-03-01")] 0 0 "s" []
      ⟨[], 0⟩ ⟨"2024-03-01", "2025-03-01"⟩ (by decide)]
    have hwd : collect_weather_data c2cfg.meteo 0 0 "2024-03-01" "2025-03-01"
        ((List.lookup "s" ((List.lookup "C" c2cfg.season_durations).getD [])).getD 90)
        = .ok (process_weather_data ⟨[1], [1], [1], [1]⟩ 90) := rfl
    simp only [hwd]
    rw [show ((List.lookup "s"
        ((List.lookup "C" c2cfg.season_durations).getD [])).getD 90) = 90 from rfl]
    rw [show c2cfg.activities = List.replicate 1001 "a" from rfl]
    rw [← hPA]
    rw [show PA = (PA.1, false) from by rw [← hb]]
    simp only
    rw [if_pos (by simp [hl])]
  have h1 : processCity c2cfg "C" "r" ⟨[], 0⟩ = (PA.1, true) := by
    rw [processCity_eq c2cfg "C" "r" ⟨[], 0⟩ 0 0 [("s", "2024-03-01")] _ rfl rfl hseq]
  have h2 : processCities c2cfg "C" ["r"] ⟨[], 0⟩ = (PA.1, true) := by
    rw [processCities_cons]
    simp only [h1]
  have h3 : run_optimized_data_collection c2cfg = PA.1 := by
    rw [show run_optimized_data_collection c2cfg
        = (processCountries c2cfg ["C"] ⟨[], 0⟩).1 from rfl]
    rw [processCountries_cons]
    rw [show (List.lookup "C" c2cfg.regionsTable).getD [] = ["r"] from rfl]
    simp only [h2]
  rw [h3, hl]
  rfl

theorem pa_fails_mono (cfg : Config) (country city season : String)
    (duration : Nat) (w : ℚ × ℚ × ℚ × ℚ) : ∀ (acts : List String) (st : LoopState),
    st.failed_attempts
      ≤ (processActivities cfg country city season duration w acts st).1.failed_attempts := by
  intro acts
  induction acts with
  | nil => intro st; simp [processActivities]
  | cons a rest ih =>
    intro st
    simp only [processActivities]
    split
    · simp
    · split
      · rename_i q hq
        exact ih
          { all_data := st.all_data ++
              [{ country := country, city := city, activity := a, season := season,
                 trend_score := q, avg_daily_precipitation := w.1,
                 avg_daily_temperature := w.2.1, avg_daily_daylight := w.2.2.1,
                 avg_daily_wind_speed := w.2.2.2, season_duration := duration }],
            failed_attempts := st.failed_attempts }
      · exact le_trans (Nat.le_succ _)
          (ih { all_data := st.all_data, failed_attempts := st.failed_attempts + 1 })

theorem pa_fails_le (cfg : Config) (country city season : String)
    (duration : Nat) (w : ℚ × ℚ × ℚ × ℚ) : ∀ (acts : List String) (st : LoopState),
    st.failed_attempts ≤ 50 →
    (processActivities cfg country city season duration w acts st).1.failed_attempts ≤ 50 := by
  intro acts
  induction acts with
  | nil => intro st h; simpa [processActivities] using h
  | cons a rest ih =>
    intro st h
    simp only [processActivities]
    split
    · simpa using h
    · rename_i hlt
      split
      · rename_i q hq
        exact ih
          { all_data := st.all_data ++
              [{ country := country, city := city, activity := a, season := season,
                 trend_score := q, avg_daily_precipitation := w.1,
                 avg_daily_temperature := w.2.1, avg_daily_daylight := w.2.2.1,
                 avg_daily_wind_speed := w.2.2.2, season_duration := duration }],
            failed_attempts := st.failed_attempts } h
      · exact ih { all_data := st.all_data, failed_attempts := st.failed_attempts + 1 }
          (by show st.failed_attempts + 1 ≤ 50; omega)

theorem pa_rows_ext (cfg : Config) (country city season : String)
    (duration : Nat) (w : ℚ × ℚ × ℚ × ℚ) : ∀ (acts : List String) (st : LoopState),
    ∃ ext, (processActivities cfg country city season duration w acts st).1.all_data
      = st.all_data ++ ext := by
  intro acts
  induction acts with
  | nil => intro st; exact ⟨[], by simp [processActivities]⟩
  | cons a rest ih =>
    intro st
    simp only [processActivities]
    split
    · exact ⟨[], by simp⟩
    · split
      · rename_i q hq
        obtain ⟨ext, hext⟩ := ih
          { all_data := st.all_data ++
              [{ country := country, city := city, activity := a, season := season,
                 trend_score := q, avg_daily_precipitation := w.1,
                 avg_daily_temperature := w.2.1, avg_daily_daylight := w.2.2.1,
                 avg_daily_wind_speed := w.2.2.2, season_duration := duration }],
            failed_attempts := st.failed_attempts }
        exact ⟨[{ country := country, city := city, activity := a, season := season,
                  trend_score := q, avg_daily_precipitation := w.1,
                  avg_daily_temperature := w.2.1, avg_daily_daylight := w.2.2.1,
                  avg_daily_wind_speed := w.2.2.2, season_duration := duration }] ++ ext,
               by rw [hext, List.append_assoc]⟩
      · exact ih { all_data := st.all_data, failed_attempts := st.failed_attempts + 1 }

theorem ps_state (cfg : Config) (country city : String)
    (cal : List (String × String)) (lat lon : ℚ) :
    ∀ (seasons : List String) (st : LoopState),
    (match processSeasons cfg country city cal lat lon seasons st with
     | .ok st' => st.failed_attempts ≤ st'.failed_attempts ∧
         (st.failed_attempts ≤ 50 → st'.failed_attempts ≤ 50) ∧
         ∃ ext, st'.all_data = st.all_data ++ ext
     | .stop st' => st.failed_attempts ≤ st'.failed_attempts ∧
         (st.failed_attempts ≤ 50 → st'.failed_attempts ≤ 50) ∧
         ∃ ext, st'.all_data = st.all_data ++ ext
     | .exc st' => st.failed_attempts ≤ st'.failed_attempts ∧
         (st.failed_attempts ≤ 50 → st'.failed_attempts ≤ 50) ∧
         ∃ ext, st'.all_data = st.all_data ++ ext) := by
  intro seasons
  induction seasons with
  | nil =>
    intro st
    simp only [processSeasons]
    exact ⟨le_refl _, fun h => h, ⟨[], by simp⟩⟩
  | cons s rest ih =>
    intro st
    simp only [processSeasons]
    cases hlk : List.lookup s (get_seasonal_ranges cal) with
    | none =>
      simp only [hlk]
      exact ih st
    | some sd =>
      simp only [hlk]
      cases hw : collect_weather_data cfg.meteo lat lon sd.startDate sd.endDate
          ((List.lookup s ((List.lookup country cfg.season_durations).getD [])).getD 90) with
      | error e =>
        simp only [hw]
        exact ⟨le_refl _, fun h => h, ⟨[], by simp⟩⟩
      | ok w =>
        simp only [hw]
        rcases hpa : processActivities cfg country city s
            ((List.lookup s ((List.lookup country cfg.season_durations).getD [])).getD 90)
            w cfg.activities st with ⟨st2, b⟩
        have hmono := pa_fails_mono cfg country city s
          ((List.lookup s ((List.lookup country cfg.season_durations).getD [])).getD 90)
          w cfg.activities st
        have hle := pa_fails_le cfg country city s
          ((List.lookup s ((List.lookup country cfg.season_durations).getD [])).getD 90)
          w cfg.activities st
        have hext := pa_rows_ext cfg country city s
          ((List.lookup s ((List.lookup country cfg.season_durations).getD [])).getD 90)
          w cfg.activities st
        rw [hpa] at hmono hle hext
        simp only at hmono hle hext
        cases b with
        | true =>
          simp only [hpa]
          exact ⟨hmono, hle, hext⟩
        | false =>
          simp only [hpa]
          by_cases hge : st2.all_data.length ≥ 1000
          · simp only [if_pos hge]
            exact ⟨hmono, hle, hext⟩
          · simp only [if_neg hge]
            have H := ih st2
            cases hres : processSeasons cfg country city cal lat lon rest st2 with
            | ok st3 =>
              rw [hres] at H
              simp only at H
              obtain ⟨e1, he1⟩ := hext
              obtain ⟨e2, he2⟩ := H.2.2
              exact ⟨le_trans hmono H.1, fun h => H.2.1 (hle h),
                ⟨e1 ++ e2, by rw [he2, he1, List.append_assoc]⟩⟩
            | stop st3 =>
              rw [hres] at H
              simp only at H
              obtain ⟨e1, he1⟩ := hext
              obtain ⟨e2, he2⟩ := H.2.2
              exact ⟨le_trans hmono H.1, fun h => H.2.1 (hle h),
                ⟨e1 ++ e2, by rw [he2, he1, List.append_assoc]⟩⟩
            | exc st3 =>
              rw [hres] at H
              simp only at H
              obtain ⟨e1, he1⟩ := hext
              obtain ⟨e2, he2⟩ := H.2.2
              exact ⟨le_trans hmono H.1, fun h => H.2.1 (hle h),
                ⟨e1 ++ e2, by rw [he2, he1, List.append_assoc]⟩⟩

theorem pc_state (cfg : Config) (country city : String) (st : LoopState) :
    st.failed_attempts ≤ (processCity cfg country city st).1.failed_attempts ∧
    (st.failed_attempts ≤ 50 →
      (processCity cfg country city st).1.failed_attempts ≤ 51) ∧
    ((processCity cfg country city st).2 = false → st.failed_attempts ≤ 50 →
      (processCity cfg country city st).1.failed_attempts ≤ 50) ∧
    (∃ ext, (processCity cfg country city st).1.all_data = st.all_data ++ ext) := by
  simp only [processCity]
  cases hco : collect_coordinates cfg.file city with
  | error e =>
    simp only [hco]
    split
    · rename_i hge
      exact ⟨Nat.le_succ _, fun h => by simp only [Prod.fst]; simp; omega, fun hfalse => by simp at hfalse,
        ⟨[], by simp⟩⟩
    · rename_i hlt
      exact ⟨Nat.le_succ _, fun h => by simp only [Prod.fst]; simp; omega, fun _ _ => by simp; omega, ⟨[], by simp⟩⟩
  | ok p =>
    rcases p with ⟨lat, lon⟩
    simp only [hco]
    cases hcd : List.lookup country cfg.countries_details with
    | none =>
      simp only [hcd]
      split
      · rename_i hge
        exact ⟨Nat.le_succ _, fun h => by simp only [Prod.fst]; simp; omega, fun hfalse => by simp at hfalse,
          ⟨[], by simp⟩⟩
      · rename_i hlt
        exact ⟨Nat.le_succ _, fun h => by simp only [Prod.fst]; simp; omega, fun _ _ => by simp; omega, ⟨[], by simp⟩⟩
    | some cal =>
      simp only [hcd]
      have H := ps_state cfg country city cal lat lon (cal.map Prod.fst) st
      cases hres : processSeasons cfg country city cal lat lon (cal.map Prod.fst) st with
      | ok st' =>
        rw [hres] at H
        simp only [hres]
        exact ⟨H.1, fun h => le_trans (H.2.1 h) (by omega), fun _ h => H.2.1 h, H.2.2⟩
      | stop st' =>
        rw [hres] at H
        simp only [hres]
        exact ⟨H.1, fun h => le_trans (H.2.1 h) (by omega),
          fun hfalse => by simp at hfalse, H.2.2⟩
      | exc st' =>
        rw [hres] at H
        simp only [hres]
        split
        · rename_i hge
          exact ⟨le_trans H.1 (Nat.le_succ _), fun h => by have := H.2.1 h; simp; omega,
            fun hfalse => by simp at hfalse, H.2.2⟩
        · rename_i hlt
          exact ⟨le_trans H.1 (Nat.le_succ _), fun h => by have := H.2.1 h; simp; omega,
            fun _ _ => by simp; omega, H.2.2⟩

theorem pcs_state (cfg : Config) (country : String) :
    ∀ (cities : List String) (st : LoopState),
    st.failed_attempts ≤ (processCities cfg country cities st).1.failed_attempts ∧
    (st.failed_attempts ≤ 50 →
      (processCities cfg country cities st).1.failed_attempts ≤ 51) ∧
    ((processCities cfg country cities st).2 = false → st.failed_attempts ≤ 50 →
      (processCities cfg country cities st).1.failed_attempts ≤ 50) ∧
    (∃ ext, (processCities cfg country cities st).1.all_data = st.all_data ++ ext) := by
  intro cities
  induction cities with
  | nil =>
    intro st
    simp only [processCities]
    exact ⟨le_refl _, fun h => by omega, fun _ h => h, ⟨[], by simp⟩⟩
  | cons city rest ih =>
    intro st
    simp only [processCities]
    have hc := pc_state cfg country city st
    rcases hp : processCity cfg country city st with ⟨st', b⟩
    rw [hp] at hc
    simp only at hc
    cases b with
    | true =>
      simp only [hp]
      exact ⟨hc.1, hc.2.1, fun hfalse => by simp at hfalse, hc.2.2.2⟩
    | false =>
      simp only [hp]
      have H := ih st'
      obtain ⟨e1, he1⟩ := hc.2.2.2
      obtain ⟨e2, he2⟩ := H.2.2.2
      refine ⟨le_trans hc.1 H.1, ?_, ?_, ⟨e1 ++ e2, by rw [he2, he1, List.append_assoc]⟩⟩
      · intro h
        exact H.2.1 (hc.2.2.1 rfl h)
      · intro hfl h
        exact H.2.2.1 hfl (hc.2.2.1 rfl h)

theorem pco_state (cfg : Config) :
    ∀ (countries : List String) (st : LoopState),
    st.failed_attempts ≤ (processCountries cfg countries st).1.failed_attempts ∧
    (st.failed_attempts ≤ 50 →
      (processCountries cfg countries st).1.failed_attempts ≤ 51) ∧
    (∃ ext, (processCountries cfg countries st).1.all_data = st.all_data ++ ext) := by
  intro countries
  induction countries with
  | nil =>
    intro st
    simp only [processCountries]
    exact ⟨le_refl _, fun h => by omega, ⟨[], by simp⟩⟩
  | cons country rest ih =>
    intro st
    simp only [processCountries]
    have hc := pcs_state cfg country ((List.lookup country cfg.regionsTable).getD []) st
    rcases hp : processCities cfg country
        ((List.lookup country cfg.regionsTable).getD []) st with ⟨st', b⟩
    rw [hp] at hc
    simp only at hc
    cases b with
    | true =>
      simp only [hp]
      exact ⟨hc.1, hc.2.1, hc.2.2.2⟩
    | false =>
      simp only [hp]
      have H := ih st'
      obtain ⟨e1, he1⟩ := hc.2.2.2
      obtain ⟨e2, he2⟩ := H.2.2
      refine ⟨le_trans hc.1 H.1, ?_, ⟨e1 ++ e2, by rw [he2, he1, List.append_assoc]⟩⟩
      intro h
      exact H.2.1 (hc.2.2.1 rfl h)

/-- Claim C5 (counterexample): in the run configured by `c5cfg`, fifty trend
failures fill a region's activity loop exactly (the counter reaches the
ceiling on the last activity, which no later check inspects), and the next
region's geocoding failure then drives the counter to 51 — strictly above
the configured ceiling of 50 — before the loop terminates. -/
theorem c5_failure_budget_counterexample :
    (run_optimized_data_collection c5cfg).failed_attempts = 51 := by decide

/-- Claim C5 (amended): the failure counter is monotonically non-decreasing
at every level of the loop and the accumulated rows are only ever extended
(never truncated or mutated), but the counter can overshoot the ceiling by
one: a run's final counter is bounded by 51, not 50, because the per-region
exception handler increments before comparing. -/
theorem c5_failure_budget_amended :
    (∀ cfg : Config,
      (run_optimized_data_collection cfg).failed_attempts ≤ 51) ∧
    (∀ (cfg : Config) (country city season : String) (duration : Nat)
       (w : ℚ × ℚ × ℚ × ℚ) (acts : List String) (st : LoopState),
      st.failed_attempts
        ≤ (processActivities cfg country city season duration w acts st).1.failed_attempts) ∧
    (∀ (cfg : Config) (country city : String) (st : LoopState),
      st.failed_attempts ≤ (processCity cfg country city st).1.failed_attempts) ∧
    (∀ (cfg : Config) (country : String) (cities : List String) (st : LoopState),
      st.failed_attempts ≤ (processCities cfg country cities st).1.failed_attempts) ∧
    (∀ (cfg : Config) (countries : List String) (st : LoopState),
      st.failed_attempts ≤ (processCountries cfg countries st).1.failed_attempts) ∧
    (∀ (cfg : Config) (country city season : String) (duration : Nat)
       (w : ℚ × ℚ × ℚ × ℚ) (acts : List String) (st : LoopState),
      ∃ ext, (processActivities cfg country city season duration w acts st).1.all_data
        = st.all_data ++ ext) ∧
    (∀ (cfg : Config) (countries : List String) (st : LoopState),
      ∃ ext, (processCountries cfg countries st).1.all_data = st.all_data ++ ext) := by
  refine ⟨?_, ?_, ?_, ?_, ?_, ?_, ?_⟩
  · intro cfg
    have h := (pco_state cfg (cfg.countries_details.map Prod.fst) ⟨[], 0⟩).2.1 (by simp)
    simpa [run_optimized_data_collection] using h
  · intro cfg c ci s d w acts st
    exact pa_fails_mono cfg c ci s d w acts st
  · intro cfg c ci st
    exact (pc_state cfg c ci st).1
  · intro cfg c cities st
    exact (pcs_state cfg c cities st).1
  · intro cfg countries st
    exact (pco_state cfg countries st).1
  · intro cfg c ci s d w acts st
    exact pa_rows_ext cfg c ci s d w acts st
  · intro cfg countries st
    exact (pco_state cfg countries st).2.2

/-- Claim C9 (counterexample): in the run configured by `c9cfg`, 49 regions
fail geocoding (counter 49), then region `"w"`'s weather fetch raises; the
handler increments the counter to the ceiling (50) and the loop returns
immediately with no rows — it does not continue with the next region `"g"`,
whose collaborator calls would all succeed. -/
theorem c9_weather_failure_counterexample :
    (run_optimized_data_collection c9cfg).failed_attempts = 50 ∧
    (run_optimized_data_collection c9cfg).all_data = [] := by decide

/-- Claim C9 (amended): when the weather fetch raises for a season, the
exception aborts that region's remaining seasons and activities with the
state unchanged (rows retained, counter untouched); the per-region handler
then increments the counter by exactly one and keeps the rows; if the
incremented counter is below the ceiling the loop continues with the next
region, and otherwise it returns the accumulated rows immediately. -/
theorem c9_weather_failure_amended :
    (∀ (cfg : Config) (country city : String)
       (country_cal : List (String × String)) (lat lon : ℚ)
       (season : String) (rest : List String) (st : LoopState)
       (rng : SeasonRange) (msg : String),
       List.lookup season (get_seasonal_ranges country_cal) = some rng →
       cfg.meteo lat lon rng.startDate rng.endDate = .error msg →
       processSeasons cfg country city country_cal lat lon (season :: rest) st
         = .exc st) ∧
    (∀ (cfg : Config) (country city : String)
       (country_cal : List (String × String)) (lat lon : ℚ)
       (st st' : LoopState),
       collect_coordinates cfg.file city = .ok (lat, lon) →
       List.lookup country cfg.countries_details = some country_cal →
       processSeasons cfg country city country_cal lat lon
         (country_cal.map Prod.fst) st = .exc st' →
       processCity cfg country city st =
         (if st'.failed_attempts + 1 ≥ 50 then
           ({ all_data := st'.all_data,
              failed_attempts := st'.failed_attempts + 1 }, true)
          else
           ({ all_data := st'.all_data,
              failed_attempts := st'.failed_attempts + 1 }, false))) ∧
    (∀ (cfg : Config) (country city : String) (rest : List String)
       (st st' : LoopState),
       processCity cfg country city st = (st', false) →
       processCities cfg country (city :: rest) st
         = processCities cfg country rest st') := by
  refine ⟨?_, ?_, ?_⟩
  · intro cfg country city country_cal lat lon season rest st rng msg hrng hw
    rw [processSeasons_cons_step cfg country city country_cal lat lon season rest
      st rng hrng]
    simp only [collect_weather_data, hw]
  · intro cfg country city country_cal lat lon st st' hco hcd hps
    simp only [processCity, hco, hcd, hps]
  · intro cfg country city rest st st' hp
    rw [processCities_cons]
    simp only [hp]

/-- Witness for the amended claim C9, at the concrete configuration
`c9wcfg`: the weather failure raises out of the season loop with the state
unchanged, the handler increments the counter to 1 and continues, and the
region loop proceeds with the next region carrying the incremented state. -/
theorem c9_weather_failure_amended_witness :
    processSeasons c9wcfg "C" "R" [("sa", "2024-01-01"), ("sb", "2024-06-01")]
      3 4 ["sa", "sb"] ⟨[], 0⟩ = .exc ⟨[], 0⟩ ∧
    processCity c9wcfg "C" "R" ⟨[], 0⟩ = (⟨[], 1⟩, false) ∧
    processCities c9wcfg "C" ["R", "R2"] ⟨[], 0⟩
      = processCities c9wcfg "C" ["R2"] ⟨[], 1⟩ := by
  have h1 := c9_weather_failure_amended.1 c9wcfg "C" "R"
    [("sa", "2024-01-01"), ("sb", "2024-06-01")] 3 4 "sa" ["sb"] ⟨[], 0⟩
    ⟨"2024-01-01", "2024-06-01"⟩ "down" (by decide) rfl
  have h2 := c9_weather_failure_amended.2.1 c9wcfg "C" "R"
    [("sa", "2024-01-01"), ("sb", "2024-06-01")] 3 4 ⟨[], 0⟩ ⟨[], 0⟩
    rfl rfl h1
  rw [if_neg (by decide)] at h2
  have h3 := c9_weather_failure_amended.2.2 c9wcfg "C" "R" ["R2"] ⟨[], 0⟩
    ⟨[], 1⟩ h2
  exact ⟨h1, h2, h3⟩
